import Mathlib

/-!
Shallow embedding of the grain budget-planning calculator
(src/src/app/page.tsx) and its chat-proxy endpoint
(src/src/app/api/ask-grain/route.ts together with the OpenAI client
accessor in src/unnamed/part_000).
Currency and percentages are modelled as exact rationals; JavaScript
Math.round and Math.ceil are modelled explicitly.
-/

namespace Grain

/-- JavaScript Math.round on a rational: round half toward positive infinity. -/
def jround (x : ℚ) : ℤ := ⌊x + 1/2⌋

/-- Source monthsToGoal (page.tsx lines 43-46):
remaining = max(0, target - saved); ceil(remaining / max(1, monthly)). -/
def monthsToGoal (target saved monthly : ℚ) : ℤ :=
  ⌈max 0 (target - saved) / max 1 monthly⌉

/-- Output record of investBreakdown. -/
structure Breakdown where
  crypto : ℚ
  etf : ℚ
  bond : ℚ
deriving DecidableEq

/-- Source investBreakdown (page.tsx lines 48-55). -/
def investBreakdown (total cryptoPct : ℚ) : Breakdown :=
  let cap := min 10 (max 0 cryptoPct) / 100
  let crypto : ℚ := (jround (total * cap) : ℚ)
  let remaining := max 0 (total - crypto)
  let etf : ℚ := (jround (remaining * (8/10)) : ℚ)
  let bond := max 0 (remaining - etf)
  ⟨crypto, etf, bond⟩

/-- Base invest share by risk profile (page.tsx lines 923-924):
the ternary chain gives conservative 0.3, balanced 0.55, and 0.75 for
anything else; a following statement overwrites the share with 0.8 for yolo. -/
def baseShare (risk : String) : ℚ :=
  let share := if risk = "conservative" then 3/10 else if risk = "balanced" then 11/20 else 3/4
  if risk = "yolo" then 4/5 else share

/-- Nominal invest share after the debt override (page.tsx line 925):
only the credit-card fields are consulted. -/
def allocShare (risk : String) (ccDebt ccApr : ℚ) : ℚ :=
  if 0 < ccDebt ∧ 10 < ccApr then max (3/20) (baseShare risk - 1/4) else baseShare risk

/-- invest = Math.round(leftover * share) (page.tsx line 926). -/
def recInvest (risk : String) (ccDebt ccApr leftover : ℚ) : ℚ :=
  (jround (leftover * allocShare risk ccDebt ccApr) : ℚ)

/-- save = Math.max(0, leftover - invest) (page.tsx line 927). -/
def recSaveCash (risk : String) (ccDebt ccApr leftover : ℚ) : ℚ :=
  max 0 (leftover - recInvest risk ccDebt ccApr leftover)

/-- effectiveShare = leftover > 0 ? invest / Math.max(1, leftover) : share
(page.tsx line 928); this is the value returned as investShare. -/
def effectiveShare (risk : String) (ccDebt ccApr leftover : ℚ) : ℚ :=
  if 0 < leftover then recInvest risk ccDebt ccApr leftover / max 1 leftover
  else allocShare risk ccDebt ccApr

/-- A debt entry as in the spec data model: balance and annual rate. -/
structure Debt where
  balance : ℚ
  annualRatePct : ℚ
deriving DecidableEq

/-- The dashboard's debt list: the credit-card-like entry and the
installment-like (student loan) entry. -/
def debtList (ccDebt ccApr studentLoan studentApr : ℚ) : List Debt :=
  [⟨ccDebt, ccApr⟩, ⟨studentLoan, studentApr⟩]

/-- The dashboard's raw numeric inputs (page.tsx lines 864-881). -/
structure DashInputs where
  income : ℚ
  rent : ℚ
  utilities : ℚ
  insurance : ℚ
  transport : ℚ
  groceries : ℚ
  dining : ℚ
  subscriptions : ℚ
  other : ℚ
  ccDebt : ℚ
  ccApr : ℚ
  studentLoan : ℚ
  studentApr : ℚ
  risk : String
  cryptoPct : ℚ
  whatIf : ℚ
deriving DecidableEq

/-- fixedTotal = rent + utilities + insurance + subscriptions (page.tsx line 914). -/
def fixedTotal (i : DashInputs) : ℚ := i.rent + i.utilities + i.insurance + i.subscriptions

/-- variableTotal = transport + groceries + dining + other (page.tsx line 915). -/
def variableTotal (i : DashInputs) : ℚ := i.transport + i.groceries + i.dining + i.other

/-- spendTotal = fixedTotal + variableTotal (page.tsx line 916). -/
def spendTotal (i : DashInputs) : ℚ := fixedTotal i + variableTotal i

/-- leftover = Math.max(0, income - spendTotal) (page.tsx line 917). -/
def leftover (i : DashInputs) : ℚ := max 0 (i.income - spendTotal i)

/-- monthlyCoreSpend = rent + utilities + groceries + transport + insurance
(page.tsx line 919). -/
def monthlyCoreSpend (i : DashInputs) : ℚ :=
  i.rent + i.utilities + i.groceries + i.transport + i.insurance

/-- emergencyTarget = Math.round(monthlyCoreSpend * 4) (page.tsx line 920). -/
def emergencyTarget (i : DashInputs) : ℚ := (jround (monthlyCoreSpend i * 4) : ℚ)

/-- The dashboard's recInvest applied to its own leftover and debt fields. -/
def dashRecInvest (i : DashInputs) : ℚ := recInvest i.risk i.ccDebt i.ccApr (leftover i)

/-- The dashboard's recSaveCash applied to its own leftover and debt fields. -/
def dashRecSaveCash (i : DashInputs) : ℚ := recSaveCash i.risk i.ccDebt i.ccApr (leftover i)

/-- monthlyToGoals = recSaveCash + recInvest (page.tsx line 932). -/
def monthlyToGoals (i : DashInputs) : ℚ := dashRecSaveCash i + dashRecInvest i

/-- monthlyToGoalsBoosted = monthlyToGoals + whatIf (page.tsx line 933). -/
def monthlyToGoalsBoosted (i : DashInputs) : ℚ := monthlyToGoals i + i.whatIf

/-- Months to the primary demo goal (target 25000, saved 8200) at the base
pace (page.tsx lines 975-977). -/
def monthsToPrimary (i : DashInputs) : ℤ := monthsToGoal 25000 8200 (monthlyToGoals i)

/-- Months to the primary demo goal at the boosted pace (page.tsx line 978). -/
def monthsToPrimaryBoost (i : DashInputs) : ℤ :=
  monthsToGoal 25000 8200 (monthlyToGoalsBoosted i)

/-- One coaching insight: title and tag verbatim from the source; the numeric
quantities interpolated into the detail string are kept as exact rationals. -/
structure Insight where
  title : String
  tag : String
  figures : List ℚ
deriving DecidableEq

/-- housingPct = (rent / Math.max(1, income)) * 100 (page.tsx line 982). -/
def housingPct (i : DashInputs) : ℚ := i.rent / max 1 i.income * 100

/-- Rule 1, housing-high (page.tsx line 983). -/
def ruleHousingHigh (i : DashInputs) : Option Insight :=
  if 35 < housingPct i then
    some ⟨"Housing Is High vs Benchmark", "benchmark",
      [housingPct i, (jround ((housingPct i - 30) / 100 * i.income) : ℚ)]⟩
  else none

/-- Rule 2, high-interest-debt (page.tsx line 984). -/
def ruleHighInterestDebt (i : DashInputs) : Option Insight :=
  if 0 < i.ccDebt ∧ 15 ≤ i.ccApr then
    some ⟨"High-Interest Debt First", "debt",
      [i.ccApr, min 300 (monthlyToGoals i), (jround (i.ccApr / 100 / 12 * i.ccDebt) : ℚ)]⟩
  else none

/-- Rule 3, subscriptions-audit (page.tsx line 985). -/
def ruleSubscriptionsAudit (i : DashInputs) : Option Insight :=
  if 40 < i.subscriptions then
    some ⟨"Subscriptions Audit", "quick win", [i.subscriptions, i.subscriptions * 12]⟩
  else none

/-- Rule 4, dining-creep (page.tsx line 986). -/
def ruleDiningCreep (i : DashInputs) : Option Insight :=
  if 200 < i.dining then
    some ⟨"Dining Out Creep", "behavior",
      [i.dining, (jround (i.dining * (2/10)) : ℚ), (jround (i.dining * (2/10) * 12) : ℚ)]⟩
  else none

/-- Rule 5, low-savings-rate (page.tsx line 987). -/
def ruleLowSavingsRate (i : DashInputs) : Option Insight :=
  if monthlyToGoals i < 500 then
    some ⟨"Increase Savings Rate", "coach",
      [monthlyToGoals i, (jround (i.income * (2/10)) : ℚ)]⟩
  else none

/-- Rule 6, emergency-fund (page.tsx line 988). -/
def ruleEmergencyFund (i : DashInputs) : Option Insight :=
  if 0 < monthlyCoreSpend i then
    some ⟨"Emergency Fund Target", "safety", [emergencyTarget i, monthlyCoreSpend i]⟩
  else none

/-- The six threshold rules in their declaration order (page.tsx lines 983-988). -/
def insightRules : List (DashInputs → Option Insight) :=
  [ruleHousingHigh, ruleHighInterestDebt, ruleSubscriptionsAudit,
   ruleDiningCreep, ruleLowSavingsRate, ruleEmergencyFund]

/-- Source insights useMemo (page.tsx lines 980-990): push the output of each
triggered rule in declaration order, then slice(0, 5). -/
def generateInsights (i : DashInputs) : List Insight :=
  ((ruleHousingHigh i).toList ++ (ruleHighInterestDebt i).toList ++
   (ruleSubscriptionsAudit i).toList ++ (ruleDiningCreep i).toList ++
   (ruleLowSavingsRate i).toList ++ (ruleEmergencyFund i).toList).take 5

/-- The dashboard's default inputs (page.tsx lines 864-881). -/
def defaultInputs : DashInputs :=
  ⟨4000, 2000, 180, 120, 160, 420, 220, 45, 120, 1200, 1999/100, 8000, 52/10,
   "balanced", 0, 0⟩

/-- Source LabeledNumber onChange (page.tsx lines 60-64). The raw text entry
is represented by whether it is the empty string together with the result of
JavaScript Number(raw): some q for a finite number, none for NaN or an
infinity. -/
def labeledNumberOnChange (rawEmpty : Bool) (parsed : Option ℚ) : ℚ :=
  let n : Option ℚ := if rawEmpty then some 0 else parsed
  match n with
  | some v => v
  | none => 0

/-- The minus stepper button: setVal(Math.max(0, Math.round(val - step)))
(page.tsx line 80). -/
def labeledNumberDec (val step : ℚ) : ℚ := max 0 (jround (val - step) : ℚ)

/-- The plus stepper button: setVal(Math.max(0, Math.round(val + step)))
(page.tsx line 81). -/
def labeledNumberInc (val step : ℚ) : ℚ := max 0 (jround (val + step) : ℚ)

/-- An OpenAI client instance, identified by the key it was constructed with
(part_000 line 16). -/
structure OpenAIClient where
  key : String
deriving DecidableEq

/-- The module-level cachedClient variable (part_000 line 3): undefined before
the first call, thereafter null or a client. -/
inductive ClientCache where
  | unset : ClientCache
  | resolved : Option OpenAIClient → ClientCache
deriving DecidableEq

/-- The process environment as seen by the accessor: the optional
OPENAI_API_KEY value. -/
structure ProcessEnv where
  openaiApiKey : Option String
deriving DecidableEq

/-- Source getOpenAIClient (part_000 lines 5-18): return the cached value
when one is set; otherwise read the environment once, cache null when the key
is absent, or construct and cache a client. -/
def getOpenAIClient (cache : ClientCache) (env : ProcessEnv) :
    Option OpenAIClient × ClientCache :=
  match cache with
  | .resolved c => (c, .resolved c)
  | .unset =>
    match env.openaiApiKey with
    | none => (none, .resolved none)
    | some k => (some ⟨k⟩, .resolved (some ⟨k⟩))

/-- A sequence of accessor calls, one per request, threading the cache and
reading a possibly different environment each time. -/
def runClientCalls : ClientCache → List ProcessEnv → List (Option OpenAIClient) × ClientCache
  | cache, [] => ([], cache)
  | cache, env :: rest =>
    let step := getOpenAIClient cache env
    let tail := runClientCalls step.2 rest
    (step.1 :: tail.1, tail.2)

/-- JavaScript String.prototype.trim: strip whitespace from both ends. -/
def jsTrim (s : String) : String :=
  ⟨((s.data.dropWhile Char.isWhitespace).reverse.dropWhile Char.isWhitespace).reverse⟩

/-- A value thrown inside the route handler (route.ts lines 60-65): an Error
carrying a message, a thrown string, or anything else. -/
inductive Thrown where
  | err : String → Thrown
  | str : String → Thrown
  | other : Thrown
deriving DecidableEq

/-- The 503 body when no credential is configured (route.ts lines 20-27). -/
def offlineMessage : String :=
  "The AI coach is currently offline. Add an OPENAI_API_KEY environment variable to re-enable it."

/-- The 500 body when the model returned no usable reply (route.ts lines 51-56). -/
def emptyReplyMessage : String := "Grain could not craft a reply. Please try again."

/-- The fallback 500 message for a non-Error, non-string thrown value
(route.ts line 65). -/
def unexpectedIssueMessage : String :=
  "Grain ran into an unexpected issue while talking to OpenAI."

/-- The message surfaced by the catch block (route.ts lines 60-65). -/
def caughtMessage : Thrown → String
  | .err m => m
  | .str s => s
  | .other => unexpectedIssueMessage

/-- An HTTP JSON response of the route: status plus the error or reply field. -/
structure ApiResponse where
  status : ℕ
  error : Option String
  reply : Option String
deriving DecidableEq

/-- Source POST handler (route.ts lines 16-73) over its three effectful
collaborators: the cached-client lookup result, the request-body parse
(req.json() may throw), and the upstream completion call, which either throws
or yields the optional choices[0].message.content. The content is trimmed and
a falsy (absent or empty) reply is rejected. -/
def postAskGrain (client : Option OpenAIClient) (body : Except Thrown Unit)
    (upstream : Except Thrown (Option String)) : ApiResponse :=
  match client with
  | none => ⟨503, some offlineMessage, none⟩
  | some _ =>
    match body with
    | .error t => ⟨500, some (caughtMessage t), none⟩
    | .ok _ =>
      match upstream with
      | .error t => ⟨500, some (caughtMessage t), none⟩
      | .ok content =>
        match content.map jsTrim with
        | none => ⟨500, some emptyReplyMessage, none⟩
        | some r => if r = "" then ⟨500, some emptyReplyMessage, none⟩ else ⟨200, none, some r⟩

/-- A request served with the module-level cache: the handler obtains the
client through getOpenAIClient and the updated cache persists. -/
def postWithCache (cache : ClientCache) (env : ProcessEnv) (body : Except Thrown Unit)
    (upstream : Except Thrown (Option String)) : ApiResponse × ClientCache :=
  let step := getOpenAIClient cache env
  (postAskGrain step.1 body upstream, step.2)

/-! Theorems. -/

/-- Enumeration of the values the base-share table can take. -/
theorem baseShare_cases (risk : String) :
    baseShare risk = 3/10 ∨ baseShare risk = 11/20 ∨ baseShare risk = 3/4 ∨
    baseShare risk = 4/5 := by
  unfold baseShare
  split_ifs <;> norm_num

/-- C1 counterexample: the code's base share for the growth profile is 0.75,
not 0.55, so growth is not treated identically to balanced. -/
theorem growth_base_share_not_balanced :
    baseShare "growth" = 3/4 ∧ ¬ baseShare "growth" = 11/20 := by
  have h : baseShare "growth" = 3/4 := by simp [baseShare]
  exact ⟨h, by rw [h]; norm_num⟩

/-- C1 (amended): the allocation stage's base invest share is determined by
the risk profile exactly as conservative 0.30, balanced 0.55, growth 0.75
(the fall-through value of the ternary chain), yolo 0.80. -/
theorem base_share_table :
    baseShare "conservative" = 3/10 ∧ baseShare "balanced" = 11/20 ∧
    baseShare "growth" = 3/4 ∧ baseShare "yolo" = 4/5 := by
  refine ⟨?_, ?_, ?_, ?_⟩ <;> simp [baseShare]

/-- Rounding error of the JavaScript round: it moves a rational by at most 1/2. -/
theorem jround_sub_abs (x : ℚ) : |(jround x : ℚ) - x| ≤ 1/2 := by
  unfold jround
  rw [abs_le]
  constructor
  · have h := Int.sub_one_lt_floor (x + 1/2)
    have : x - 1/2 < ((⌊x + 1/2⌋ : ℤ) : ℚ) := by linarith
    linarith
  · have h := Int.floor_le (x + 1/2)
    linarith

/-- The nominal share after the override always lies between 0.15 and 0.80. -/
theorem allocShare_bounds (risk : String) (ccDebt ccApr : ℚ) :
    3/20 ≤ allocShare risk ccDebt ccApr ∧ allocShare risk ccDebt ccApr ≤ 4/5 := by
  unfold allocShare
  rcases baseShare_cases risk with h | h | h | h <;> rw [h] <;> split_ifs <;>
    constructor <;> first
      | exact le_max_left _ _
      | exact max_le (by norm_num) (by norm_num)
      | norm_num

/-- C2 counterexample: the installment-like (student-loan) entry of the debt
list has balance 8000 > 0 at rate 12 > 10, yet with no credit-card balance the
invest share is not reduced at all: it stays equal to the base share. -/
theorem debt_override_ignores_student_loan :
    (⟨8000, 12⟩ : Debt) ∈ debtList 0 0 8000 12 ∧ (0:ℚ) < 8000 ∧ (10:ℚ) < 12 ∧
    allocShare "balanced" 0 0 = baseShare "balanced" := by
  refine ⟨by simp [debtList], by norm_num, by norm_num, ?_⟩
  simp [allocShare]

/-- C2 (amended): the debt override consults only the credit-card entry of
the debt list. If the credit-card debt has balance > 0 and annual rate > 10,
the invest share becomes max(0.15, base - 0.25) and is strictly less than the
base share for that profile; a qualifying installment debt alone (see the
counterexample) leaves the share unchanged. -/
theorem cc_debt_override (risk : String) (ccDebt ccApr : ℚ)
    (hb : 0 < ccDebt) (hr : 10 < ccApr) :
    allocShare risk ccDebt ccApr = max (3/20) (baseShare risk - 1/4) ∧
    allocShare risk ccDebt ccApr < baseShare risk := by
  have h1 : allocShare risk ccDebt ccApr = max (3/20) (baseShare risk - 1/4) := by
    simp [allocShare, hb, hr]
  refine ⟨h1, ?_⟩
  rcases baseShare_cases risk with h | h | h | h <;> rw [h1, h] <;>
    exact max_lt (by norm_num) (by norm_num)

/-- Witness for C2: the scenario-C credit card (balance 1200 at 19.99%)
with the balanced profile. -/
theorem cc_debt_override_witness :
    allocShare "balanced" 1200 (1999/100) = max (3/20) (baseShare "balanced" - 1/4) ∧
    allocShare "balanced" 1200 (1999/100) < baseShare "balanced" :=
  cc_debt_override "balanced" 1200 (1999/100) (by norm_num) (by norm_num)

/-- C3 counterexample: with leftover 1, the conservative profile and no debt,
invest = round(1 * 0.3) = 0, so the reported investShare (the realized ratio)
is 0, violating the claimed lower bound 0.15. -/
theorem effective_share_below_floor :
    effectiveShare "conservative" 0 0 1 = 0 ∧ ¬ 3/20 ≤ effectiveShare "conservative" 0 0 1 := by
  have hs : allocShare "conservative" 0 0 = 3/10 := by
    simp [allocShare, baseShare]
  have h0 : effectiveShare "conservative" 0 0 1 = 0 := by
    rw [effectiveShare, if_pos (by norm_num : (0:ℚ) < 1), recInvest, hs]
    norm_num [jround]
  exact ⟨h0, by rw [h0]; norm_num⟩

/-- C3 (amended): the nominal share always satisfies 0.15 ≤ share ≤ 0.80; the
reported investShare equals the nominal share when leftover = 0 (hence is in
bounds there), and when leftover ≥ 1 it is the realized ratio, which differs
from the nominal share by at most 1/(2·leftover) — rounding can therefore push
the reported value outside [0.15, 0.80] (see the counterexample). -/
theorem invest_share_bounds (risk : String) (ccDebt ccApr leftover : ℚ) :
    3/20 ≤ allocShare risk ccDebt ccApr ∧ allocShare risk ccDebt ccApr ≤ 4/5 ∧
    (leftover = 0 → effectiveShare risk ccDebt ccApr leftover = allocShare risk ccDebt ccApr) ∧
    (1 ≤ leftover →
      |effectiveShare risk ccDebt ccApr leftover - allocShare risk ccDebt ccApr| ≤
        1 / (2 * leftover)) := by
  refine ⟨(allocShare_bounds risk ccDebt ccApr).1, (allocShare_bounds risk ccDebt ccApr).2,
    ?_, ?_⟩
  · intro h
    rw [effectiveShare, if_neg (by rw [h]; exact lt_irrefl 0)]
  · intro h
    have hL : (0:ℚ) < leftover := lt_of_lt_of_le one_pos h
    set s := allocShare risk ccDebt ccApr with hs
    have heff : effectiveShare risk ccDebt ccApr leftover =
        (jround (leftover * s) : ℚ) / leftover := by
      rw [effectiveShare, if_pos hL, recInvest, max_eq_right h]
    rw [heff]
    have hdiff : (jround (leftover * s) : ℚ) / leftover - s =
        ((jround (leftover * s) : ℚ) - leftover * s) / leftover := by
      field_simp
    rw [hdiff, abs_div, abs_of_pos hL]
    calc |(jround (leftover * s) : ℚ) - leftover * s| / leftover
        ≤ (1/2) / leftover := by
          exact div_le_div_of_nonneg_right (jround_sub_abs (leftover * s)) hL.le
      _ = 1 / (2 * leftover) := by rw [div_div]

/-- Witness for C3 at the balanced profile with leftover 735. -/
theorem invest_share_bounds_witness :
    3/20 ≤ allocShare "balanced" 0 0 ∧ allocShare "balanced" 0 0 ≤ 4/5 ∧
    |effectiveShare "balanced" 0 0 735 - allocShare "balanced" 0 0| ≤ 1 / (2 * 735) :=
  ⟨(invest_share_bounds "balanced" 0 0 735).1,
   (invest_share_bounds "balanced" 0 0 735).2.1,
   (invest_share_bounds "balanced" 0 0 735).2.2.2 (by norm_num)⟩

/-- Lower bound of the JavaScript round for a non-negative argument. -/
theorem jround_nonneg (x : ℚ) (hx : 0 ≤ x) : 0 ≤ jround x := by
  unfold jround
  exact Int.le_floor.mpr (by push_cast; linarith)

/-- Upper bound of the JavaScript round. -/
theorem jround_le (x : ℚ) : (jround x : ℚ) ≤ x + 1/2 := Int.floor_le (x + 1/2)

/-- The crypto bucket never exceeds a non-negative total, because the cap is
at most 10 percent. -/
theorem crypto_le_total (total cryptoPct : ℚ) (h : 0 ≤ total) :
    (jround (total * (min 10 (max 0 cryptoPct) / 100)) : ℚ) ≤ total := by
  set cap := min 10 (max 0 cryptoPct) / 100 with hcapdef
  have hcapnn : 0 ≤ cap :=
    div_nonneg (le_min (by norm_num) (le_max_left 0 _)) (by norm_num)
  have hcaple : cap ≤ 1/10 := by
    have h10 : min 10 (max 0 cryptoPct) ≤ 10 := min_le_left _ _
    rw [hcapdef]
    linarith
  have hmul : total * cap ≤ total * (1/10) := mul_le_mul_of_nonneg_left hcaple h
  have hmulnn : 0 ≤ total * cap := mul_nonneg h hcapnn
  by_cases hca : 5/9 ≤ total
  · calc (jround (total * cap) : ℚ) ≤ total * cap + 1/2 := jround_le _
      _ ≤ total := by linarith
  · push_neg at hca
    have hlt : jround (total * cap) < 1 := by
      unfold jround
      exact Int.floor_lt.mpr (by push_cast; linarith)
    have hnn : 0 ≤ jround (total * cap) := jround_nonneg _ hmulnn
    have hz : jround (total * cap) = 0 := by omega
    rw [hz]
    exact_mod_cast h

/-- C4: for a non-negative investAmount, the mix stage computes
crypto = round(investAmount * cap/100) with the cap clamped into [0,10] and
etf = round(remaining * 0.8) (both definitional), the bond bucket is never
negative, the three buckets sum to within 1 currency unit of investAmount,
and for a whole-number investAmount bond is exactly remaining - etf. -/
theorem invest_breakdown_ok (total cryptoPct : ℚ) (h : 0 ≤ total) :
    (investBreakdown total cryptoPct).crypto =
      (jround (total * (min 10 (max 0 cryptoPct) / 100)) : ℚ) ∧
    (investBreakdown total cryptoPct).etf =
      (jround (max 0 (total - (investBreakdown total cryptoPct).crypto) * (8/10)) : ℚ) ∧
    0 ≤ (investBreakdown total cryptoPct).bond ∧
    |(investBreakdown total cryptoPct).crypto + (investBreakdown total cryptoPct).etf +
      (investBreakdown total cryptoPct).bond - total| ≤ 1 ∧
    ((∃ n : ℤ, total = (n : ℚ)) →
      (investBreakdown total cryptoPct).bond =
        max 0 (total - (investBreakdown total cryptoPct).crypto) -
          (investBreakdown total cryptoPct).etf) := by
  have hcrypto : (investBreakdown total cryptoPct).crypto =
      (jround (total * (min 10 (max 0 cryptoPct) / 100)) : ℚ) := rfl
  set c : ℚ := (jround (total * (min 10 (max 0 cryptoPct) / 100)) : ℚ) with hcdef
  have hetf : (investBreakdown total cryptoPct).etf =
      (jround (max 0 (total - c) * (8/10)) : ℚ) := rfl
  set e : ℚ := (jround (max 0 (total - c) * (8/10)) : ℚ) with hedef
  have hbond : (investBreakdown total cryptoPct).bond = max 0 (max 0 (total - c) - e) := rfl
  have hcle : c ≤ total := crypto_le_total total cryptoPct h
  have hrem : max 0 (total - c) = total - c := max_eq_right (by linarith)
  refine ⟨hcrypto, hetf, ?_, ?_, ?_⟩
  · rw [hbond]
    exact le_max_left _ _
  · rw [hcrypto, hetf, hbond, hrem]
    by_cases hbe : e ≤ total - c
    · rw [max_eq_right (by linarith)]
      have : c + e + (total - c - e) - total = 0 := by ring
      rw [this]
      norm_num
    · push_neg at hbe
      rw [max_eq_left (by linarith)]
      have hele : e ≤ (total - c) * (8/10) + 1/2 := by
        rw [hedef, hrem]
        exact jround_le _
      have habs : c + e + 0 - total = e - (total - c) := by ring
      rw [habs, abs_of_pos (by linarith)]
      linarith
  · rintro ⟨n, hn⟩
    have hcint : ∃ m : ℤ, c = (m : ℚ) := ⟨jround (total * (min 10 (max 0 cryptoPct) / 100)), rfl⟩
    obtain ⟨m, hm⟩ := hcint
    have hrint : total - c = ((n - m : ℤ) : ℚ) := by rw [hn, hm]; push_cast; ring
    have hrnn : (0:ℚ) ≤ ((n - m : ℤ) : ℚ) := by rw [← hrint]; linarith
    have hknn : (0:ℤ) ≤ n - m := by exact_mod_cast hrnn
    have hele : jround (((n - m : ℤ) : ℚ) * (8/10)) ≤ n - m := by
      unfold jround
      have : ((n - m : ℤ) : ℚ) * (8/10) + 1/2 < ((n - m : ℤ) : ℚ) + 1 := by
        have : (0:ℚ) ≤ ((n - m : ℤ) : ℚ) := hrnn
        linarith
      have hlt := Int.floor_lt.mpr (show ((n - m : ℤ) : ℚ) * (8/10) + 1/2 < ((n - m + 1 : ℤ) : ℚ) by push_cast; linarith)
      omega
    have heqe : e = (jround (((n - m : ℤ) : ℚ) * (8/10)) : ℚ) := by rw [hedef, hrem, hrint]
    have hele' : e ≤ total - c := by
      rw [heqe, hrint]
      exact_mod_cast hele
    rw [hbond, hcrypto, hetf, hrem]
    exact max_eq_right (by linarith)

/-- Witness for C4 at investAmount 404 with a 10 percent crypto cap. -/
theorem invest_breakdown_ok_witness :
    0 ≤ (investBreakdown 404 10).bond ∧
    |(investBreakdown 404 10).crypto + (investBreakdown 404 10).etf +
      (investBreakdown 404 10).bond - 404| ≤ 1 ∧
    (investBreakdown 404 10).bond =
      max 0 (404 - (investBreakdown 404 10).crypto) - (investBreakdown 404 10).etf :=
  ⟨(invest_breakdown_ok 404 10 (by norm_num)).2.2.1,
   (invest_breakdown_ok 404 10 (by norm_num)).2.2.2.1,
   (invest_breakdown_ok 404 10 (by norm_num)).2.2.2.2 ⟨404, by norm_num⟩⟩

/-- C5: monthsToGoal is monotonically non-increasing in the rate; it is 0
whenever saved ≥ target; and a non-negative boost never increases the
projection, so monthsWithBoost ≤ monthsAtCurrentPace. -/
theorem months_to_goal_monotone (target saved r1 r2 boost : ℚ) :
    (r1 ≤ r2 → monthsToGoal target saved r2 ≤ monthsToGoal target saved r1) ∧
    (target ≤ saved → monthsToGoal target saved r1 = 0) ∧
    (0 ≤ boost → monthsToGoal target saved (r1 + boost) ≤ monthsToGoal target saved r1) := by
  have hmono : ∀ a b : ℚ, a ≤ b →
      monthsToGoal target saved b ≤ monthsToGoal target saved a := by
    intro a b hab
    unfold monthsToGoal
    have hnum : 0 ≤ max 0 (target - saved) := le_max_left _ _
    have hd1 : (0:ℚ) < max 1 a := lt_of_lt_of_le zero_lt_one (le_max_left _ _)
    have hd : max 1 a ≤ max 1 b := max_le_max le_rfl hab
    exact Int.ceil_le_ceil (by gcongr)
  refine ⟨hmono r1 r2, ?_, fun hb => hmono r1 (r1 + boost) (by linarith)⟩
  intro h
  unfold monthsToGoal
  rw [max_eq_left (by linarith), zero_div, Int.ceil_zero]

/-- Witness for C5: scenario D, target 25000 and saved 8200; months at rate
735 is 23, at the boosted rate 1035 it is 17, and 17 ≤ 23. -/
theorem months_to_goal_monotone_witness :
    monthsToGoal 25000 8200 1035 ≤ monthsToGoal 25000 8200 735 ∧
    monthsToGoal 8200 25000 735 = 0 ∧
    monthsToGoal 25000 8200 (735 + 300) ≤ monthsToGoal 25000 8200 735 :=
  ⟨(months_to_goal_monotone 25000 8200 735 1035 300).1 (by norm_num),
   (months_to_goal_monotone 8200 25000 735 0 0).2.1 (by norm_num),
   (months_to_goal_monotone 25000 8200 735 1035 300).2.2 (by norm_num)⟩

/-- filterMap over six optional values is the concatenation of their
singleton-or-empty lists. -/
theorem filterMap_six (a b c d e f : Option Insight) :
    List.filterMap id [a, b, c, d, e, f] =
      a.toList ++ b.toList ++ c.toList ++ d.toList ++ e.toList ++ f.toList := by
  cases a <;> cases b <;> cases c <;> cases d <;> cases e <;> cases f <;> rfl

/-- C6: insight generation applies the six threshold rules in their declared
order (housing-high, high-interest-debt, subscriptions-audit, dining-creep,
low-savings-rate, emergency-fund), each rule emitting zero or one insight,
keeps only the first five emitted, and is deterministic. -/
theorem insights_fixed_order (i j : DashInputs) :
    generateInsights i = ((insightRules.map (fun r => r i)).filterMap id).take 5 ∧
    (∀ r ∈ insightRules, (r i).toList.length ≤ 1) ∧
    (generateInsights i).length ≤ 5 ∧
    (i = j → generateInsights i = generateInsights j) := by
  refine ⟨?_, ?_, List.length_take_le 5 _, fun h => by rw [h]⟩
  · have hmap : insightRules.map (fun r => r i) =
        [ruleHousingHigh i, ruleHighInterestDebt i, ruleSubscriptionsAudit i,
         ruleDiningCreep i, ruleLowSavingsRate i, ruleEmergencyFund i] := rfl
    rw [hmap, filterMap_six]
    rfl
  · intro r _
    cases r i <;> simp

/-- Witness for C6 at the dashboard's default inputs. -/
theorem insights_fixed_order_witness :
    generateInsights defaultInputs =
      ((insightRules.map (fun r => r defaultInputs)).filterMap id).take 5 ∧
    (generateInsights defaultInputs).length ≤ 5 ∧
    generateInsights defaultInputs = generateInsights defaultInputs :=
  ⟨(insights_fixed_order defaultInputs defaultInputs).1,
   (insights_fixed_order defaultInputs defaultInputs).2.2.1,
   (insights_fixed_order defaultInputs defaultInputs).2.2.2 rfl⟩

/-- C7 counterexample: in scenario B the value reported as investShare is the
realized ratio 404/735 (about 0.5497), not 0.55. -/
theorem scenario_b_effective_share :
    effectiveShare "balanced" 0 0 735 = 404/735 ∧
    ¬ effectiveShare "balanced" 0 0 735 = 11/20 := by
  have hs : allocShare "balanced" 0 0 = 11/20 := by simp [allocShare, baseShare]
  have h0 : effectiveShare "balanced" 0 0 735 = 404/735 := by
    rw [effectiveShare, if_pos (by norm_num : (0:ℚ) < 735), recInvest, hs,
      max_eq_right (by norm_num : (1:ℚ) ≤ 735)]
    norm_num [jround]
  refine ⟨h0, by rw [h0]; norm_num⟩

/-- C7 (amended): in scenario B (leftover 735, balanced, no qualifying debt)
the nominal share is 0.55 and the amounts are invest 404 and cash 331, while
the reported investShare is the realized ratio 404/735; in scenario C
(credit-card balance 1200 at 19.99 percent) the nominal share is 0.30, the
amounts are invest 221 and cash 514, and the reported investShare is 221/735. -/
theorem scenario_b_c_amounts :
    allocShare "balanced" 0 0 = 11/20 ∧
    recInvest "balanced" 0 0 735 = 404 ∧
    recSaveCash "balanced" 0 0 735 = 331 ∧
    effectiveShare "balanced" 0 0 735 = 404/735 ∧
    allocShare "balanced" 1200 (1999/100) = 3/10 ∧
    recInvest "balanced" 1200 (1999/100) 735 = 221 ∧
    recSaveCash "balanced" 1200 (1999/100) 735 = 514 ∧
    effectiveShare "balanced" 1200 (1999/100) 735 = 221/735 := by
  have hs1 : allocShare "balanced" 0 0 = 11/20 := by simp [allocShare, baseShare]
  have hs2 : allocShare "balanced" 1200 (1999/100) = 3/10 := by
    rw [allocShare, if_pos ⟨by norm_num, by norm_num⟩]
    have hb : baseShare "balanced" = 11/20 := by simp [baseShare]
    rw [hb, show (11/20 : ℚ) - 1/4 = 3/10 by norm_num]
    exact max_eq_right (by norm_num)
  have hi1 : recInvest "balanced" 0 0 735 = 404 := by
    rw [recInvest, hs1]
    norm_num [jround]
  have hi2 : recInvest "balanced" 1200 (1999/100) 735 = 221 := by
    rw [recInvest, hs2]
    norm_num [jround]
  have hc1 : recSaveCash "balanced" 0 0 735 = 331 := by
    rw [recSaveCash, hi1]
    norm_num
  have hc2 : recSaveCash "balanced" 1200 (1999/100) 735 = 514 := by
    rw [recSaveCash, hi2]
    norm_num
  have he1 : effectiveShare "balanced" 0 0 735 = 404/735 := by
    rw [effectiveShare, if_pos (by norm_num : (0:ℚ) < 735), hi1,
      max_eq_right (by norm_num : (1:ℚ) ≤ 735)]
  have he2 : effectiveShare "balanced" 1200 (1999/100) 735 = 221/735 := by
    rw [effectiveShare, if_pos (by norm_num : (0:ℚ) < 735), hi2,
      max_eq_right (by norm_num : (1:ℚ) ≤ 735)]
  exact ⟨hs1, hi1, hc1, he1, hs2, hi2, hc2, he2⟩

/-- C8 counterexample: an upstream call that throws an Error whose message
happens to equal the empty-reply message produces exactly the same observable
response as the empty-reply case, so the two failure kinds are not always
distinguishable by the caller. -/
theorem chat_failure_collision :
    postAskGrain (some ⟨"key"⟩) (Except.ok ()) (Except.error (Thrown.err emptyReplyMessage)) =
      postAskGrain (some ⟨"key"⟩) (Except.ok ()) (Except.ok none) ∧
    (Except.error (Thrown.err emptyReplyMessage) : Except Thrown (Option String)) ≠
      Except.ok none := by
  exact ⟨rfl, by simp⟩

/-- C8 (amended): the endpoint has three failure outcomes — (a) no credential
gives 503 with the distinct offline message; (b) a thrown body-parse or
upstream error gives 500 with the thrown message (or the generic fallback for
a non-Error value); (c) an absent or empty model reply gives 500 with the
empty-reply message. The three fixed messages are pairwise distinct, but when
the upstream error carries its own message case (b) can coincide with case
(c) (see the counterexample). -/
theorem chat_failure_taxonomy (c : OpenAIClient) (body : Except Thrown Unit)
    (upstream : Except Thrown (Option String)) (t : Thrown) (content : String) :
    postAskGrain none body upstream = ⟨503, some offlineMessage, none⟩ ∧
    postAskGrain (some c) (Except.error t) upstream = ⟨500, some (caughtMessage t), none⟩ ∧
    postAskGrain (some c) (Except.ok ()) (Except.error t) =
      ⟨500, some (caughtMessage t), none⟩ ∧
    postAskGrain (some c) (Except.ok ()) (Except.ok none) =
      ⟨500, some emptyReplyMessage, none⟩ ∧
    (jsTrim content = "" →
      postAskGrain (some c) (Except.ok ()) (Except.ok (some content)) =
        ⟨500, some emptyReplyMessage, none⟩) ∧
    emptyReplyMessage ≠ unexpectedIssueMessage ∧
    emptyReplyMessage ≠ offlineMessage ∧
    offlineMessage ≠ unexpectedIssueMessage := by
  refine ⟨rfl, rfl, rfl, rfl, ?_, by decide, by decide, by decide⟩
  intro h
  show (if jsTrim content = "" then (⟨500, some emptyReplyMessage, none⟩ : ApiResponse)
        else ⟨200, none, some (jsTrim content)⟩) = ⟨500, some emptyReplyMessage, none⟩
  rw [if_pos h]

/-- Witness for C8 with a concrete client, a whitespace-only model reply and
a non-Error thrown value. -/
theorem chat_failure_taxonomy_witness :
    postAskGrain none (Except.ok ()) (Except.ok none) = ⟨503, some offlineMessage, none⟩ ∧
    postAskGrain (some ⟨"k"⟩) (Except.ok ()) (Except.error Thrown.other) =
      ⟨500, some (caughtMessage Thrown.other), none⟩ ∧
    postAskGrain (some ⟨"k"⟩) (Except.ok ()) (Except.ok (some "  ")) =
      ⟨500, some emptyReplyMessage, none⟩ :=
  ⟨(chat_failure_taxonomy ⟨"k"⟩ (Except.ok ()) (Except.ok none) Thrown.other "  ").1,
   (chat_failure_taxonomy ⟨"k"⟩ (Except.ok ()) (Except.ok none) Thrown.other "  ").2.2.1,
   (chat_failure_taxonomy ⟨"k"⟩ (Except.ok ()) (Except.ok none) Thrown.other "  ").2.2.2.2.1
     (by decide)⟩

/-- C9 counterexample: typing -50 parses to the finite number -50, which the
onChange handler passes through unchanged, so the calculator receives a
negative number from user input. -/
theorem negative_entry_passes_through :
    labeledNumberOnChange false (some (-50)) = -50 ∧
    labeledNumberOnChange false (some (-50)) < 0 := by
  exact ⟨rfl, by norm_num [labeledNumberOnChange]⟩

/-- C9 (amended): the onChange handler coerces the empty entry and non-finite
parses to 0, but passes every finite parsed value through unchanged —
including negative ones, so the calculator can receive negative numbers from
typed input; only the stepper buttons clamp their result at 0. -/
theorem on_change_coercion (p : Option ℚ) (v val step : ℚ) :
    labeledNumberOnChange true p = 0 ∧
    labeledNumberOnChange false none = 0 ∧
    labeledNumberOnChange false (some v) = v ∧
    0 ≤ labeledNumberDec val step ∧
    0 ≤ labeledNumberInc val step :=
  ⟨rfl, rfl, rfl, le_max_left _ _, le_max_left _ _⟩

/-- A resolved cache replays its value for every further call, ignoring the
environments. -/
theorem runClientCalls_resolved (c : Option OpenAIClient) (envs : List ProcessEnv) :
    runClientCalls (ClientCache.resolved c) envs =
      (List.replicate envs.length c, ClientCache.resolved c) := by
  induction envs with
  | nil => rfl
  | cons e rest ih => simp [runClientCalls, getOpenAIClient, ih, List.replicate]

/-- C10: the accessor memoizes for the process lifetime — a resolved cache is
returned as-is without reading the environment; a first call with the key
absent caches null, and every later call of the sequence returns null
regardless of later environments; and serving a request on a null-resolved
cache yields the 503 offline response even if the environment now has a key. -/
theorem client_cache_memoized (c : Option OpenAIClient) (env env2 : ProcessEnv)
    (envs : List ProcessEnv) (body : Except Thrown Unit)
    (upstream : Except Thrown (Option String)) :
    getOpenAIClient (ClientCache.resolved c) env = (c, ClientCache.resolved c) ∧
    (env.openaiApiKey = none →
      runClientCalls ClientCache.unset (env :: envs) =
        (List.replicate (envs.length + 1) none, ClientCache.resolved none)) ∧
    (postWithCache (ClientCache.resolved none) env2 body upstream).1 =
      ⟨503, some offlineMessage, none⟩ := by
  refine ⟨rfl, ?_, rfl⟩
  intro h
  simp [runClientCalls, getOpenAIClient, h, runClientCalls_resolved, List.replicate_succ]

/-- Witness for C10: the key is absent at the first request and present at the
second, yet both requests see no client, and the dashboard keeps getting the
503 offline response. -/
theorem client_cache_memoized_witness :
    runClientCalls ClientCache.unset [⟨none⟩, ⟨some "sk-test"⟩] =
      (List.replicate 2 none, ClientCache.resolved none) ∧
    (postWithCache (ClientCache.resolved none) ⟨some "sk-test"⟩ (Except.ok ())
        (Except.ok (some "hello"))).1 = ⟨503, some offlineMessage, none⟩ :=
  ⟨(client_cache_memoized none ⟨none⟩ ⟨some "sk-test"⟩ [⟨some "sk-test"⟩] (Except.ok ())
      (Except.ok (some "hello"))).2.1 rfl,
   (client_cache_memoized none ⟨none⟩ ⟨some "sk-test"⟩ [⟨some "sk-test"⟩] (Except.ok ())
      (Except.ok (some "hello"))).2.2⟩

end Grain
